import Mathlib

/-!
Shallow embedding of the Drifting time-driven simulation core
(gameStore / useCharacterUpdate / useEventTrigger / constants),
with theorems checking the natural-language specification against it.

Numbers: JS numbers are modelled as `ℚ` (all constants involved are exact
decimals); timestamps (`Date.now()` milliseconds) as `ℕ`.  `Math.min`
over a possibly-empty spread is modelled in `WithTop ℚ` (`⊤` = Infinity).
`toFixed(2)` followed by `parseFloat` is modelled as rounding to the
nearest multiple of 1/100 (`round2`).

Constants `MAX_PASSERBY_COUNT`, `PASSERBY_APPEAR_CHANCE`,
`MIN/MAX_PASSERBY_DURATION`, `MAX_TEAM_SIZE` and the static `events`
table are imported by the store from modules not present in the source
tree; they are taken as parameters of the corresponding definitions.
Randomness (`Math.random()` draws, generated characters, sampled
durations) is passed in explicitly as oracle data.
-/

namespace Drifting

/-- constants.ts -/
def TIME_UPDATE_INTERVAL : ℕ := 60000

def SATIETY_DECREASE_RATE : ℚ := 0.1

def HYDRATION_DECREASE_RATE : ℚ := 0.2

def STAMINA_DECREASE_RATE : ℚ := 0.3

def MOOD_DECREASE_RATE : ℚ := 0.05

def STAMINA_INCREASE_RATE : ℚ := 1.5

def MOOD_INCREASE_RATE : ℚ := 0.1

def MAX_STAT_VALUE : ℚ := 100

def EVENT_TRIGGER_PROBABILITY : ℚ := 0.35

def APPLE_EVENT_PROBABILITY : ℚ := 0.3

def WALKING_SPEED : ℚ := 70

/-- `parseFloat(x.toFixed(2))`: round to the nearest multiple of 1/100. -/
def round2 (q : ℚ) : ℚ := (round (q * 100) : ℤ) / 100

/-- A rational that is an exact two-decimal value (an integer number of
hundredths), the form every stored vital has. -/
def Cent (q : ℚ) : Prop := ∃ n : ℤ, q = n / 100

/-- Character record (src/types): identity, descriptive fields, attributes,
speeds, riding flag and the four vitals. -/
structure Character where
  id : String
  name : String
  gender : String
  age : ℕ
  strength : ℕ
  agility : ℕ
  charisma : ℕ
  intelligence : ℕ
  walkingSpeed : ℚ
  ridingSpeed : ℚ
  isRiding : Bool
  satiety : ℚ
  hydration : ℚ
  stamina : ℚ
  mood : ℚ
  deriving Repr, DecidableEq

/-- An item stack: name and quantity. -/
structure Item where
  name : String
  quantity : ℕ
  deriving Repr, DecidableEq

/-- A passerby: a character paired with an absolute expiration timestamp. -/
structure Passerby where
  character : Character
  expirationTime : ℕ
  deriving Repr, DecidableEq

/-- useCharacterUpdate.ts `updateCharacterWhileTraveling`. -/
def updateCharacterWhileTraveling (c : Character) : Character :=
  { c with
    satiety := round2 (max (c.satiety - SATIETY_DECREASE_RATE) 0)
    hydration := round2 (max (c.hydration - HYDRATION_DECREASE_RATE) 0)
    stamina := round2 (max (c.stamina - STAMINA_DECREASE_RATE) 0)
    mood := round2 (max (c.mood - MOOD_DECREASE_RATE) 0) }

/-- useCharacterUpdate.ts `updateCharacterWhileResting`. -/
def updateCharacterWhileResting (c : Character) : Character :=
  { c with
    stamina := round2 (min (c.stamina + STAMINA_INCREASE_RATE) MAX_STAT_VALUE)
    mood := round2 (min (c.mood + MOOD_INCREASE_RATE) MAX_STAT_VALUE) }

/-- The two event effects `events[0].effect` / `events[1].effect` and the
`Math.random()` draw consumed by `triggerEvents`.  The `events` table lives
in a module not present under src, so the effects are oracle data here;
each effect maps (items, log) to (items, log). -/
structure EventOracle where
  roll : ℚ
  effect0 : List Item → List String → List Item × List String
  effect1 : List Item → List String → List Item × List String

/-- useEventTrigger.ts `triggerEvents`: one uniform draw, cumulative banded
selection over the two thresholds. -/
def triggerEvents (ev : EventOracle) (items : List Item) (log : List String) :
    List Item × List String :=
  if ev.roll < APPLE_EVENT_PROBABILITY then ev.effect0 items log
  else if ev.roll < EVENT_TRIGGER_PROBABILITY then ev.effect1 items log
  else (items, log)

/-- The random data consumed by one `handlePassersby` call: the spawn roll,
the freshly generated character and the sampled duration. -/
structure SpawnOracle where
  roll : ℚ
  newChar : Character
  duration : ℕ

/-- gameStore (full variant) `handlePassersby`: drop entries whose
expiration is at or before `now`; then, when strictly below `maxCount` and
the roll is below `appearChance`, append one new passerby expiring at
`now + duration`.  `maxCount` = MAX_PASSERBY_COUNT and `appearChance` =
PASSERBY_APPEAR_CHANCE (constants not present under src). -/
def handlePassersby (maxCount : ℕ) (appearChance : ℚ) (o : SpawnOracle)
    (now : ℕ) (ps : List Passerby) : List Passerby :=
  let filtered := ps.filter (fun p => decide (now < p.expirationTime))
  if filtered.length < maxCount ∧ o.roll < appearChance then
    filtered ++ [⟨o.newChar, now + o.duration⟩]
  else filtered

/-- The mutable store state of gameStore. -/
structure GameState where
  player : Option Character
  team : List Character
  selectedCharacter : Option Character
  travelDistance : WithTop ℚ
  isTraveling : Bool
  items : List Item
  log : List String
  currentTime : ℕ
  passersby : List Passerby

/-- A member's effective speed: riding speed when riding, else walking. -/
def effectiveSpeed (c : Character) : ℚ :=
  if c.isRiding then c.ridingSpeed else c.walkingSpeed

/-- gameStore `teamSpeed` computed property:
`Math.min(...team.map(effective))`; `⊤` models `Math.min()` = Infinity on
an empty team. -/
def teamSpeed (team : List Character) : WithTop ℚ :=
  (team.map effectiveSpeed).foldr (fun x acc => min (↑x) acc) ⊤

/-- gameStore `isPlayer`: `character.id === player.value?.id`; when no
player is initialized the optional chain yields `undefined` and the strict
equality with a string id is false. -/
def isPlayer (s : GameState) (c : Character) : Bool :=
  match s.player with
  | none => false
  | some p => c.id == p.id

/-- gameStore `selectCharacter`. -/
def selectCharacter (s : GameState) (c : Character) : GameState :=
  { s with selectedCharacter := some c }

/-- gameStore (full variant) `toggleTravelState`: flip the flag; when the
new state is resting, shift every expiration forward by the time left to
the next tick boundary. -/
def toggleTravelState (now : ℕ) (s : GameState) : GameState :=
  let traveling := !s.isTraveling
  if traveling then
    { s with isTraveling := traveling }
  else
    { s with
      isTraveling := traveling
      passersby := s.passersby.map (fun p =>
        { p with expirationTime :=
            p.expirationTime + (TIME_UPDATE_INTERVAL - now % TIME_UPDATE_INTERVAL) }) }

/-- gameStore (full variant) `updateTime`: record the time; if traveling,
add team speed to the distance, decay every member, resolve one event and
tick passersby; if resting, apply rest recovery to every member. -/
def updateTime (maxCount : ℕ) (appearChance : ℚ) (ev : EventOracle)
    (o : SpawnOracle) (now : ℕ) (s : GameState) : GameState :=
  let s1 := { s with currentTime := now }
  if s1.isTraveling then
    let itemsLog := triggerEvents ev s1.items s1.log
    { s1 with
      travelDistance := s1.travelDistance + teamSpeed s1.team
      team := s1.team.map updateCharacterWhileTraveling
      items := itemsLog.1
      log := itemsLog.2
      passersby := handlePassersby maxCount appearChance o now s1.passersby }
  else
    { s1 with team := s1.team.map updateCharacterWhileResting }

/-- The three interaction actions. -/
inductive Action where
  | talk
  | attack
  | invite
  deriving Repr, DecidableEq

/-- gameStore (full variant) `interactWithPasserby`: look the target up by
id in the passersby list; absent target is a no-op; `talk` narrates;
`attack` narrates and removes; `invite` joins the team when below
`maxTeamSize`, else narrates failure.  `desc` stands for
`generateCharacterDescription` (defined outside src). -/
def interactWithPasserby (maxTeamSize : ℕ) (desc : Character → String)
    (action : Action) (c : Character) (s : GameState) : GameState :=
  match s.passersby.findIdx? (fun p => p.character.id == c.id) with
  | none => s
  | some i =>
    match action with
    | .talk => { s with log := s.log ++ ["你与" ++ desc c ++ "交谈。"] }
    | .attack =>
        { s with
          log := s.log ++ ["你攻击了" ++ desc c ++ "！"]
          passersby := s.passersby.eraseIdx i }
    | .invite =>
        if s.team.length < maxTeamSize then
          { s with
            team := s.team ++ [c]
            passersby := s.passersby.eraseIdx i
            log := s.log ++ [desc c ++ "加入了你的队伍。"] }
        else
          { s with log := s.log ++ ["你的队伍已满,无法邀请更多成员。"] }

/-! ### Concrete sample data used by witnesses -/

/-- A sample character with the given id (walking, full vitals). -/
def mkChar (i : String) : Character :=
  { id := i, name := "Alice", gender := "female", age := 25
    strength := 5, agility := 5, charisma := 5, intelligence := 5
    walkingSpeed := 70, ridingSpeed := 120, isRiding := false
    satiety := 100, hydration := 100, stamina := 100, mood := 100 }

/-- A sample game state with the given travel flag, team and passersby. -/
def mkState (traveling : Bool) (team : List Character) (ps : List Passerby) : GameState :=
  { player := none, team := team, selectedCharacter := none
    travelDistance := 0, isTraveling := traveling, items := [], log := []
    currentTime := 0, passersby := ps }

/-- A concrete character exercising C5: one vital clamps at 0, the rest
decrease by exactly their rates. -/
def c5Char : Character :=
  { mkChar "c5" with satiety := 50.25, hydration := 0.1, stamina := 100, mood := 0.05 }

/-- A concrete character exercising C6: stamina clamps at 100, mood
increases by exactly its rate. -/
def c6Char : Character :=
  { mkChar "c6" with satiety := 10, hydration := 20, stamina := 99.5, mood := 40.45 }

/-- A concrete state with one outstanding passerby, used by the C1 witness. -/
def c1State : GameState :=
  mkState true [mkChar "p"] [⟨mkChar "x", 120000⟩]

/-- A concrete event effect (appends a narration line), used by the C2 witness. -/
def c2Effect0 : List Item → List String → List Item × List String :=
  fun items log => (items, log ++ ["apple event"])

/-- A second concrete event effect, used by the C2 witness. -/
def c2Effect1 : List Item → List String → List Item × List String :=
  fun items log => (items, log ++ ["sword event"])

/-- A concrete team of two walkers (speed 70) and one rider (speed 120),
used by the C7 witness. -/
def c7Team : List Character :=
  [mkChar "a", mkChar "b", { mkChar "r" with isRiding := true, ridingSpeed := 120 }]

/-- A concrete uninitialized state (no player), used by the C10 witness. -/
def c10State : GameState := mkState true [] []

/-- A spawn oracle whose roll forbids spawning, used by the C3 counterexample. -/
def c3Oracle : SpawnOracle := ⟨1, mkChar "n", 5000⟩

/-- Two unexpired passersby: more than a maximum of 1, used by the C3
counterexample. -/
def c3Input : List Passerby := [⟨mkChar "x", 100⟩, ⟨mkChar "y", 200⟩]

/-- A spawn oracle that does spawn (roll 0, duration 5000), used by the C3
witness. -/
def c3WOracle : SpawnOracle := ⟨0, mkChar "w", 5000⟩

/-- One expired and one live passerby at time 150, used by the C3 witness. -/
def c3WInput : List Passerby := [⟨mkChar "x", 100⟩, ⟨mkChar "y", 500⟩]

/-- A state whose passersby list holds the invitee "q", used by the C4 and
C8 witnesses' claims. -/
def c4State : GameState :=
  mkState true [mkChar "p"] [⟨mkChar "q", 900⟩, ⟨mkChar "r", 950⟩]

/-- A trivial description function for witnesses. -/
def descFn : Character → String := fun c => c.name

/-- A resting state with one team member and one passerby, used by the C9
witness. -/
def c9State : GameState := mkState false [mkChar "p"] [⟨mkChar "q", 999⟩]

/-- An event oracle used by the C9 witness. -/
def c9Ev : EventOracle := ⟨0.5, c2Effect0, c2Effect1⟩

/-- A spawn oracle used by the C9 witness. -/
def c9Oracle : SpawnOracle := ⟨0, mkChar "n", 100⟩

/-! ### Helper lemmas about `round2` and `Cent` -/

theorem round2_cent {q : ℚ} (h : Cent q) : round2 q = q := by
  obtain ⟨n, rfl⟩ := h
  have h1 : ((n : ℚ) / 100) * 100 = (n : ℚ) := by field_simp
  rw [round2, h1, round_intCast]

theorem round2_nonneg {q : ℚ} (h : 0 ≤ q) : 0 ≤ round2 q := by
  have h1 : (0 : ℤ) ≤ round (q * 100) := by
    rw [round_eq]
    exact Int.floor_nonneg.mpr (by positivity)
  rw [round2]
  positivity

theorem round2_le_100 {q : ℚ} (h : q ≤ 100) : round2 q ≤ 100 := by
  have h1 : round (q * 100) ≤ round ((10000 : ℤ) : ℚ) := by
    rw [round_eq, round_eq]
    exact Int.floor_mono (by linarith)
  rw [round_intCast] at h1
  rw [round2]
  have h2 : ((round (q * 100) : ℤ) : ℚ) ≤ (10000 : ℚ) := by exact_mod_cast h1
  linarith

theorem cent_sub {a b : ℚ} (ha : Cent a) (hb : Cent b) : Cent (a - b) := by
  obtain ⟨n, rfl⟩ := ha
  obtain ⟨m, rfl⟩ := hb
  exact ⟨n - m, by push_cast; ring⟩

theorem cent_add {a b : ℚ} (ha : Cent a) (hb : Cent b) : Cent (a + b) := by
  obtain ⟨n, rfl⟩ := ha
  obtain ⟨m, rfl⟩ := hb
  exact ⟨n + m, by push_cast; ring⟩

theorem cent_max {a b : ℚ} (ha : Cent a) (hb : Cent b) : Cent (max a b) := by
  rcases le_total a b with h | h
  · rwa [max_eq_right h]
  · rwa [max_eq_left h]

theorem cent_min {a b : ℚ} (ha : Cent a) (hb : Cent b) : Cent (min a b) := by
  rcases le_total a b with h | h
  · rwa [min_eq_left h]
  · rwa [min_eq_right h]

theorem cent_zero : Cent 0 := ⟨0, by norm_num⟩

theorem cent_hundred : Cent 100 := ⟨10000, by norm_num⟩

theorem cent_satiety_rate : Cent SATIETY_DECREASE_RATE := ⟨10, by norm_num [SATIETY_DECREASE_RATE]⟩

theorem cent_hydration_rate : Cent HYDRATION_DECREASE_RATE := ⟨20, by norm_num [HYDRATION_DECREASE_RATE]⟩

theorem cent_stamina_rate : Cent STAMINA_DECREASE_RATE := ⟨30, by norm_num [STAMINA_DECREASE_RATE]⟩

theorem cent_mood_rate : Cent MOOD_DECREASE_RATE := ⟨5, by norm_num [MOOD_DECREASE_RATE]⟩

theorem cent_stamina_inc : Cent STAMINA_INCREASE_RATE := ⟨150, by norm_num [STAMINA_INCREASE_RATE]⟩

theorem cent_mood_inc : Cent MOOD_INCREASE_RATE := ⟨10, by norm_num [MOOD_INCREASE_RATE]⟩

theorem cent_max_stat : Cent MAX_STAT_VALUE := ⟨10000, by norm_num [MAX_STAT_VALUE]⟩

/-- On two-decimal inputs the travel-decay formula needs no rounding. -/
theorem decay_eq {v r : ℚ} (hv : Cent v) (hr : Cent r) :
    round2 (max (v - r) 0) = max (v - r) 0 :=
  round2_cent (cent_max (cent_sub hv hr) cent_zero)

/-- On two-decimal inputs the rest-recovery formula needs no rounding. -/
theorem recovery_eq {v r : ℚ} (hv : Cent v) (hr : Cent r) :
    round2 (min (v + r) MAX_STAT_VALUE) = min (v + r) MAX_STAT_VALUE :=
  round2_cent (cent_min (cent_add hv hr) cent_max_stat)

/-! ### Claim theorems -/

/-- C5: `updateCharacterWhileTraveling` sets each of the four vitals to
`max(vital − its own fixed decrease rate, 0)` rounded to two decimal
places, so after the call each vital is ≥ 0 and (for well-formed
two-decimal vitals) has decreased by exactly its configured rate unless
clamped at 0. -/
theorem C5_travel_decay (c : Character)
    (hs : Cent c.satiety) (hh : Cent c.hydration)
    (hst : Cent c.stamina) (hm : Cent c.mood) :
    (updateCharacterWhileTraveling c).satiety = max (c.satiety - SATIETY_DECREASE_RATE) 0 ∧
    (updateCharacterWhileTraveling c).hydration = max (c.hydration - HYDRATION_DECREASE_RATE) 0 ∧
    (updateCharacterWhileTraveling c).stamina = max (c.stamina - STAMINA_DECREASE_RATE) 0 ∧
    (updateCharacterWhileTraveling c).mood = max (c.mood - MOOD_DECREASE_RATE) 0 ∧
    0 ≤ (updateCharacterWhileTraveling c).satiety ∧
    0 ≤ (updateCharacterWhileTraveling c).hydration ∧
    0 ≤ (updateCharacterWhileTraveling c).stamina ∧
    0 ≤ (updateCharacterWhileTraveling c).mood ∧
    (SATIETY_DECREASE_RATE ≤ c.satiety →
      (updateCharacterWhileTraveling c).satiety = c.satiety - SATIETY_DECREASE_RATE) ∧
    (HYDRATION_DECREASE_RATE ≤ c.hydration →
      (updateCharacterWhileTraveling c).hydration = c.hydration - HYDRATION_DECREASE_RATE) ∧
    (STAMINA_DECREASE_RATE ≤ c.stamina →
      (updateCharacterWhileTraveling c).stamina = c.stamina - STAMINA_DECREASE_RATE) ∧
    (MOOD_DECREASE_RATE ≤ c.mood →
      (updateCharacterWhileTraveling c).mood = c.mood - MOOD_DECREASE_RATE) := by
  have e1 : (updateCharacterWhileTraveling c).satiety
      = max (c.satiety - SATIETY_DECREASE_RATE) 0 := decay_eq hs cent_satiety_rate
  have e2 : (updateCharacterWhileTraveling c).hydration
      = max (c.hydration - HYDRATION_DECREASE_RATE) 0 := decay_eq hh cent_hydration_rate
  have e3 : (updateCharacterWhileTraveling c).stamina
      = max (c.stamina - STAMINA_DECREASE_RATE) 0 := decay_eq hst cent_stamina_rate
  have e4 : (updateCharacterWhileTraveling c).mood
      = max (c.mood - MOOD_DECREASE_RATE) 0 := decay_eq hm cent_mood_rate
  refine ⟨e1, e2, e3, e4, ?_, ?_, ?_, ?_, ?_, ?_, ?_, ?_⟩
  · rw [e1]; exact le_max_right _ _
  · rw [e2]; exact le_max_right _ _
  · rw [e3]; exact le_max_right _ _
  · rw [e4]; exact le_max_right _ _
  · intro h; rw [e1]; exact max_eq_left (by linarith)
  · intro h; rw [e2]; exact max_eq_left (by linarith)
  · intro h; rw [e3]; exact max_eq_left (by linarith)
  · intro h; rw [e4]; exact max_eq_left (by linarith)

/-- C5 witness at a concrete character. -/
theorem C5_travel_decay_witness :
    (updateCharacterWhileTraveling c5Char).satiety = max (c5Char.satiety - SATIETY_DECREASE_RATE) 0 ∧
    (updateCharacterWhileTraveling c5Char).hydration = max (c5Char.hydration - HYDRATION_DECREASE_RATE) 0 ∧
    (updateCharacterWhileTraveling c5Char).stamina = max (c5Char.stamina - STAMINA_DECREASE_RATE) 0 ∧
    (updateCharacterWhileTraveling c5Char).mood = max (c5Char.mood - MOOD_DECREASE_RATE) 0 ∧
    0 ≤ (updateCharacterWhileTraveling c5Char).satiety ∧
    0 ≤ (updateCharacterWhileTraveling c5Char).hydration ∧
    0 ≤ (updateCharacterWhileTraveling c5Char).stamina ∧
    0 ≤ (updateCharacterWhileTraveling c5Char).mood ∧
    (SATIETY_DECREASE_RATE ≤ c5Char.satiety →
      (updateCharacterWhileTraveling c5Char).satiety = c5Char.satiety - SATIETY_DECREASE_RATE) ∧
    (HYDRATION_DECREASE_RATE ≤ c5Char.hydration →
      (updateCharacterWhileTraveling c5Char).hydration = c5Char.hydration - HYDRATION_DECREASE_RATE) ∧
    (STAMINA_DECREASE_RATE ≤ c5Char.stamina →
      (updateCharacterWhileTraveling c5Char).stamina = c5Char.stamina - STAMINA_DECREASE_RATE) ∧
    (MOOD_DECREASE_RATE ≤ c5Char.mood →
      (updateCharacterWhileTraveling c5Char).mood = c5Char.mood - MOOD_DECREASE_RATE) :=
  C5_travel_decay c5Char ⟨5025, by norm_num [c5Char]⟩ ⟨10, by norm_num [c5Char]⟩
    ⟨10000, by norm_num [c5Char]⟩ ⟨5, by norm_num [c5Char]⟩

/-- C6: `updateCharacterWhileResting` sets stamina to
`min(stamina + STAMINA_INCREASE_RATE, MAX_STAT_VALUE)` and mood to
`min(mood + MOOD_INCREASE_RATE, MAX_STAT_VALUE)`, each rounded to two
decimals, leaving satiety and hydration unchanged; afterwards stamina and
mood are ≤ 100 and (for well-formed two-decimal vitals) increased by
exactly their configured rate unless clamped at 100. -/
theorem C6_rest_recovery (c : Character) (hst : Cent c.stamina) (hm : Cent c.mood) :
    (updateCharacterWhileResting c).stamina
      = min (c.stamina + STAMINA_INCREASE_RATE) MAX_STAT_VALUE ∧
    (updateCharacterWhileResting c).mood
      = min (c.mood + MOOD_INCREASE_RATE) MAX_STAT_VALUE ∧
    (updateCharacterWhileResting c).satiety = c.satiety ∧
    (updateCharacterWhileResting c).hydration = c.hydration ∧
    (updateCharacterWhileResting c).stamina ≤ 100 ∧
    (updateCharacterWhileResting c).mood ≤ 100 ∧
    (c.stamina + STAMINA_INCREASE_RATE ≤ MAX_STAT_VALUE →
      (updateCharacterWhileResting c).stamina = c.stamina + STAMINA_INCREASE_RATE) ∧
    (c.mood + MOOD_INCREASE_RATE ≤ MAX_STAT_VALUE →
      (updateCharacterWhileResting c).mood = c.mood + MOOD_INCREASE_RATE) := by
  have e1 : (updateCharacterWhileResting c).stamina
      = min (c.stamina + STAMINA_INCREASE_RATE) MAX_STAT_VALUE := recovery_eq hst cent_stamina_inc
  have e2 : (updateCharacterWhileResting c).mood
      = min (c.mood + MOOD_INCREASE_RATE) MAX_STAT_VALUE := recovery_eq hm cent_mood_inc
  refine ⟨e1, e2, rfl, rfl, ?_, ?_, ?_, ?_⟩
  · rw [e1]; exact le_trans (min_le_right _ _) (by norm_num [MAX_STAT_VALUE])
  · rw [e2]; exact le_trans (min_le_right _ _) (by norm_num [MAX_STAT_VALUE])
  · intro h; rw [e1]; exact min_eq_left h
  · intro h; rw [e2]; exact min_eq_left h

/-- C6 witness at a concrete character. -/
theorem C6_rest_recovery_witness :
    (updateCharacterWhileResting c6Char).stamina
      = min (c6Char.stamina + STAMINA_INCREASE_RATE) MAX_STAT_VALUE ∧
    (updateCharacterWhileResting c6Char).mood
      = min (c6Char.mood + MOOD_INCREASE_RATE) MAX_STAT_VALUE ∧
    (updateCharacterWhileResting c6Char).satiety = c6Char.satiety ∧
    (updateCharacterWhileResting c6Char).hydration = c6Char.hydration ∧
    (updateCharacterWhileResting c6Char).stamina ≤ 100 ∧
    (updateCharacterWhileResting c6Char).mood ≤ 100 ∧
    (c6Char.stamina + STAMINA_INCREASE_RATE ≤ MAX_STAT_VALUE →
      (updateCharacterWhileResting c6Char).stamina = c6Char.stamina + STAMINA_INCREASE_RATE) ∧
    (c6Char.mood + MOOD_INCREASE_RATE ≤ MAX_STAT_VALUE →
      (updateCharacterWhileResting c6Char).mood = c6Char.mood + MOOD_INCREASE_RATE) :=
  C6_rest_recovery c6Char ⟨9950, by norm_num [c6Char]⟩ ⟨4045, by norm_num [c6Char]⟩

/-- C1: `toggleTravelState` flips the flag; when the previous state was
traveling (so the new state is resting) every outstanding passerby's
expiration moves forward by exactly `TIME_UPDATE_INTERVAL - now %
TIME_UPDATE_INTERVAL`, a strictly positive amount; when the previous state
was resting, all expirations are left unchanged. -/
theorem C1_pause_compensation (now : ℕ) (s : GameState) :
    (toggleTravelState now s).isTraveling = !s.isTraveling ∧
    0 < TIME_UPDATE_INTERVAL - now % TIME_UPDATE_INTERVAL ∧
    (s.isTraveling = true →
      (toggleTravelState now s).passersby = s.passersby.map (fun p =>
        { p with expirationTime :=
            p.expirationTime + (TIME_UPDATE_INTERVAL - now % TIME_UPDATE_INTERVAL) })) ∧
    (s.isTraveling = false → (toggleTravelState now s).passersby = s.passersby) := by
  have hpos : 0 < TIME_UPDATE_INTERVAL - now % TIME_UPDATE_INTERVAL :=
    Nat.sub_pos_of_lt (Nat.mod_lt now (by norm_num [TIME_UPDATE_INTERVAL]))
  cases hs : s.isTraveling <;>
    simp [toggleTravelState, hs, hpos]

/-- C1 witness: toggling a concrete traveling state at time 45000 shifts
the one outstanding expiration forward by a positive amount. -/
theorem C1_pause_compensation_witness :
    (toggleTravelState 45000 c1State).passersby = c1State.passersby.map (fun p =>
      { p with expirationTime :=
          p.expirationTime + (TIME_UPDATE_INTERVAL - 45000 % TIME_UPDATE_INTERVAL) }) ∧
    0 < TIME_UPDATE_INTERVAL - 45000 % TIME_UPDATE_INTERVAL :=
  ⟨(C1_pause_compensation 45000 c1State).2.2.1 rfl,
   (C1_pause_compensation 45000 c1State).2.1⟩

/-- C2: `triggerEvents` performs cumulative banded selection on its single
draw: below `APPLE_EVENT_PROBABILITY` exactly event 0's effect runs; from
there up to `EVENT_TRIGGER_PROBABILITY` exactly event 1's effect runs;
otherwise no effect runs — so at most one event fires per tick. -/
theorem C2_event_banding (ev : EventOracle) (items : List Item) (log : List String) :
    (ev.roll < APPLE_EVENT_PROBABILITY →
      triggerEvents ev items log = ev.effect0 items log) ∧
    (APPLE_EVENT_PROBABILITY ≤ ev.roll → ev.roll < EVENT_TRIGGER_PROBABILITY →
      triggerEvents ev items log = ev.effect1 items log) ∧
    (EVENT_TRIGGER_PROBABILITY ≤ ev.roll →
      triggerEvents ev items log = (items, log)) := by
  unfold triggerEvents
  refine ⟨fun h1 => ?_, fun h1 h2 => ?_, fun h1 => ?_⟩
  · rw [if_pos h1]
  · rw [if_neg (not_lt.mpr h1), if_pos h2]
  · have h2 : ¬ ev.roll < APPLE_EVENT_PROBABILITY := by
      rw [APPLE_EVENT_PROBABILITY] at *
      rw [EVENT_TRIGGER_PROBABILITY] at h1
      intro hc
      linarith
    rw [if_neg h2, if_neg (not_lt.mpr h1)]

/-- C2 witness: with draws 0.2, 0.32 and 0.9 against thresholds
(0.3, 0.35), event 0 fires, event 1 fires, and nothing fires. -/
theorem C2_event_banding_witness :
    triggerEvents ⟨0.2, c2Effect0, c2Effect1⟩ [] [] = c2Effect0 [] [] ∧
    triggerEvents ⟨0.32, c2Effect0, c2Effect1⟩ [] [] = c2Effect1 [] [] ∧
    triggerEvents ⟨0.9, c2Effect0, c2Effect1⟩ [] [] = ([], []) :=
  ⟨(C2_event_banding ⟨0.2, c2Effect0, c2Effect1⟩ [] []).1
      (by norm_num [APPLE_EVENT_PROBABILITY]),
   (C2_event_banding ⟨0.32, c2Effect0, c2Effect1⟩ [] []).2.1
      (by norm_num [APPLE_EVENT_PROBABILITY])
      (by norm_num [EVENT_TRIGGER_PROBABILITY]),
   (C2_event_banding ⟨0.9, c2Effect0, c2Effect1⟩ [] []).2.2
      (by norm_num [EVENT_TRIGGER_PROBABILITY])⟩

/-- C7: for every non-empty team, `teamSpeed` is attained by some member's
effective speed and is a lower bound of all members' effective speeds —
i.e. it is exactly the minimum of the members' effective speeds. -/
theorem C7_team_speed (team : List Character) (h : team ≠ []) :
    (∃ c ∈ team, teamSpeed team = (effectiveSpeed c : WithTop ℚ)) ∧
    (∀ c ∈ team, teamSpeed team ≤ (effectiveSpeed c : WithTop ℚ)) := by
  induction team with
  | nil => exact absurd rfl h
  | cons c rest ih =>
    have hts : teamSpeed (c :: rest)
        = min (↑(effectiveSpeed c)) (teamSpeed rest) := rfl
    by_cases hr : rest = []
    · subst hr
      refine ⟨⟨c, List.mem_cons_self c [], ?_⟩, ?_⟩
      · rw [hts]
        exact min_eq_left le_top
      · intro d hd
        rcases List.mem_cons.mp hd with rfl | hd'
        · rw [hts]; exact min_le_left _ _
        · exact absurd hd' (List.not_mem_nil d)
    · obtain ⟨⟨c', hc', he⟩, hle⟩ := ih hr
      constructor
      · rcases le_total (↑(effectiveSpeed c) : WithTop ℚ) (teamSpeed rest) with hcase | hcase
        · exact ⟨c, List.mem_cons_self c rest, by rw [hts, min_eq_left hcase]⟩
        · exact ⟨c', List.mem_cons_of_mem c hc', by rw [hts, min_eq_right hcase, he]⟩
      · intro d hd
        rcases List.mem_cons.mp hd with rfl | hd'
        · rw [hts]; exact min_le_left _ _
        · rw [hts]; exact le_trans (min_le_right _ _) (hle d hd')

/-- C7 witness: a team of two walkers at speed 70 and one rider at 120 has
team speed 70, which is attained and a lower bound. -/
theorem C7_team_speed_witness :
    ((∃ c ∈ c7Team, teamSpeed c7Team = (effectiveSpeed c : WithTop ℚ)) ∧
      (∀ c ∈ c7Team, teamSpeed c7Team ≤ (effectiveSpeed c : WithTop ℚ))) ∧
    teamSpeed c7Team = ((70 : ℚ) : WithTop ℚ) := by
  constructor
  · exact C7_team_speed c7Team (by simp [c7Team])
  · show min ((70 : ℚ) : WithTop ℚ) (min ((70 : ℚ) : WithTop ℚ)
      (min ((120 : ℚ) : WithTop ℚ) ⊤)) = ((70 : ℚ) : WithTop ℚ)
    rw [min_eq_left le_top]
    have h1 : ((70 : ℚ) : WithTop ℚ) ≤ ((120 : ℚ) : WithTop ℚ) :=
      by exact_mod_cast (by norm_num : (70 : ℚ) ≤ 120)
    rw [min_eq_left h1, min_self]

/-- C10: `isPlayer` returns true iff a player has been initialized and the
character's id equals the player's id; with no player initialized it
returns false for every character. -/
theorem C10_isPlayer (s : GameState) (c : Character) :
    (isPlayer s c = true ↔ ∃ p, s.player = some p ∧ c.id = p.id) ∧
    (s.player = none → isPlayer s c = false) := by
  cases hp : s.player with
  | none => simp [isPlayer, hp]
  | some p => simp [isPlayer, hp]

/-- C10 witness: in a concrete uninitialized state `isPlayer` is false. -/
theorem C10_isPlayer_witness : isPlayer c10State (mkChar "z") = false :=
  (C10_isPlayer c10State (mkChar "z")).2 rfl

/-- C3 counterexample: with maximum 1 and an input list already holding two
unexpired passersby, the post-tick list still has two entries, exceeding
the maximum — the filter never truncates an over-long input. -/
theorem C3_max_count_counterexample :
    (handlePassersby 1 0 c3Oracle 0 c3Input).length = 2 ∧
    ¬ (handlePassersby 1 0 c3Oracle 0 c3Input).length ≤ 1 := by
  decide

/-- C3 (amended): when every spawned duration is positive and the input
list is within MAX_PASSERBY_COUNT (as holds in every reachable state), the
post-tick list contains no entry expiring at or before `now` and its
length never exceeds MAX_PASSERBY_COUNT: at most one passerby is appended,
and only when the post-filter count is strictly below the maximum. -/
theorem C3_passersby_tick (maxCount : ℕ) (appearChance : ℚ) (o : SpawnOracle)
    (now : ℕ) (ps : List Passerby)
    (hdur : 0 < o.duration) (hlen : ps.length ≤ maxCount) :
    (∀ p ∈ handlePassersby maxCount appearChance o now ps, now < p.expirationTime) ∧
    (handlePassersby maxCount appearChance o now ps).length ≤ maxCount := by
  have hmem : ∀ p ∈ ps.filter (fun p => decide (now < p.expirationTime)),
      now < p.expirationTime := by
    intro p hp
    exact of_decide_eq_true (List.mem_filter.mp hp).2
  have hflen : (ps.filter (fun p => decide (now < p.expirationTime))).length ≤ ps.length :=
    List.length_filter_le _ _
  simp only [handlePassersby]
  split_ifs with hc
  · constructor
    · intro p hp
      rcases List.mem_append.mp hp with h1 | h1
      · exact hmem p h1
      · rw [List.mem_singleton] at h1
        subst h1
        exact Nat.lt_add_of_pos_right hdur
    · rw [List.length_append, List.length_singleton]
      omega
  · exact ⟨hmem, le_trans hflen hlen⟩

/-- C3 witness: the expired entry is dropped, the live one kept, one new
passerby appended, all within the maximum of 3. -/
theorem C3_passersby_tick_witness :
    (∀ p ∈ handlePassersby 3 1 c3WOracle 150 c3WInput, 150 < p.expirationTime) ∧
    (handlePassersby 3 1 c3WOracle 150 c3WInput).length ≤ 3 :=
  C3_passersby_tick 3 1 c3WOracle 150 c3WInput (by decide) (by decide)

/-- C4: for a character present in the passersby list, `invite` below
capacity appends it to the team (size +1), removes it from passersby and
logs a success line; at or above capacity it leaves team and passersby
unchanged and appends exactly one failure line. -/
theorem C4_invite (maxTeamSize : ℕ) (desc : Character → String) (c : Character)
    (s : GameState) (i : ℕ)
    (hi : s.passersby.findIdx? (fun p => p.character.id == c.id) = some i) :
    (s.team.length < maxTeamSize →
      (interactWithPasserby maxTeamSize desc .invite c s).team = s.team ++ [c] ∧
      (interactWithPasserby maxTeamSize desc .invite c s).team.length = s.team.length + 1 ∧
      (interactWithPasserby maxTeamSize desc .invite c s).passersby = s.passersby.eraseIdx i ∧
      (interactWithPasserby maxTeamSize desc .invite c s).passersby.length + 1
        = s.passersby.length ∧
      (interactWithPasserby maxTeamSize desc .invite c s).log
        = s.log ++ [desc c ++ "加入了你的队伍。"]) ∧
    (maxTeamSize ≤ s.team.length →
      (interactWithPasserby maxTeamSize desc .invite c s).team = s.team ∧
      (interactWithPasserby maxTeamSize desc .invite c s).passersby = s.passersby ∧
      (interactWithPasserby maxTeamSize desc .invite c s).log
        = s.log ++ ["你的队伍已满,无法邀请更多成员。"]) := by
  have hilen : i < s.passersby.length := (List.findIdx?_eq_some_iff_getElem.mp hi).1
  constructor
  · intro hlt
    have e : interactWithPasserby maxTeamSize desc .invite c s
        = { s with
            team := s.team ++ [c]
            passersby := s.passersby.eraseIdx i
            log := s.log ++ [desc c ++ "加入了你的队伍。"] } := by
      simp only [interactWithPasserby, hi, if_pos hlt]
    rw [e]
    exact ⟨rfl, by rw [List.length_append, List.length_singleton],
      rfl, List.length_eraseIdx_add_one hilen, rfl⟩
  · intro hge
    have e : interactWithPasserby maxTeamSize desc .invite c s
        = { s with log := s.log ++ ["你的队伍已满,无法邀请更多成员。"] } := by
      simp only [interactWithPasserby, hi, if_neg (not_lt.mpr hge)]
    rw [e]
    exact ⟨rfl, rfl, rfl⟩

/-- C4 witness: inviting the present passerby "q" into a 1-member team of
capacity 4 grows the team, removes the invitee and logs success. -/
theorem C4_invite_witness :
    (interactWithPasserby 4 descFn .invite (mkChar "q") c4State).team
      = c4State.team ++ [mkChar "q"] ∧
    (interactWithPasserby 4 descFn .invite (mkChar "q") c4State).team.length
      = c4State.team.length + 1 ∧
    (interactWithPasserby 4 descFn .invite (mkChar "q") c4State).passersby
      = c4State.passersby.eraseIdx 0 ∧
    (interactWithPasserby 4 descFn .invite (mkChar "q") c4State).passersby.length + 1
      = c4State.passersby.length ∧
    (interactWithPasserby 4 descFn .invite (mkChar "q") c4State).log
      = c4State.log ++ [descFn (mkChar "q") ++ "加入了你的队伍。"] :=
  (C4_invite 4 descFn (mkChar "q") c4State 0 rfl).1 (by decide)

/-- C8: for every action and every character whose id does not occur in the
passersby list, `interactWithPasserby` returns the state unchanged. -/
theorem C8_absent_noop (maxTeamSize : ℕ) (desc : Character → String)
    (action : Action) (c : Character) (s : GameState)
    (h : ∀ p ∈ s.passersby, p.character.id ≠ c.id) :
    interactWithPasserby maxTeamSize desc action c s = s := by
  have hfind : s.passersby.findIdx? (fun p => p.character.id == c.id) = none := by
    rw [List.findIdx?_eq_none_iff]
    intro p hp
    simpa using h p hp
  simp [interactWithPasserby, hfind]

/-- C8 witness: interacting with the absent character "z" leaves the
concrete state untouched. -/
theorem C8_absent_noop_witness :
    interactWithPasserby 4 descFn .invite (mkChar "z") c4State = c4State :=
  C8_absent_noop 4 descFn .invite (mkChar "z") c4State (by decide)

/-- C9: a tick in the resting state only records the time and applies rest
recovery to every member: distance, items, log, passersby, flag, player and
selection are unchanged, team ids are unchanged, and rest recovery itself
touches nothing but stamina and mood. -/
theorem C9_resting_frame (maxCount : ℕ) (appearChance : ℚ) (ev : EventOracle)
    (o : SpawnOracle) (now : ℕ) (s : GameState) (h : s.isTraveling = false) :
    (updateTime maxCount appearChance ev o now s).travelDistance = s.travelDistance ∧
    (updateTime maxCount appearChance ev o now s).items = s.items ∧
    (updateTime maxCount appearChance ev o now s).log = s.log ∧
    (updateTime maxCount appearChance ev o now s).passersby = s.passersby ∧
    (updateTime maxCount appearChance ev o now s).isTraveling = s.isTraveling ∧
    (updateTime maxCount appearChance ev o now s).player = s.player ∧
    (updateTime maxCount appearChance ev o now s).selectedCharacter = s.selectedCharacter ∧
    (updateTime maxCount appearChance ev o now s).currentTime = now ∧
    (updateTime maxCount appearChance ev o now s).team
      = s.team.map updateCharacterWhileResting ∧
    (updateTime maxCount appearChance ev o now s).team.map Character.id
      = s.team.map Character.id ∧
    (∀ c : Character,
      (updateCharacterWhileResting c).id = c.id ∧
      (updateCharacterWhileResting c).name = c.name ∧
      (updateCharacterWhileResting c).satiety = c.satiety ∧
      (updateCharacterWhileResting c).hydration = c.hydration ∧
      (updateCharacterWhileResting c).walkingSpeed = c.walkingSpeed ∧
      (updateCharacterWhileResting c).ridingSpeed = c.ridingSpeed ∧
      (updateCharacterWhileResting c).isRiding = c.isRiding) := by
  have e : updateTime maxCount appearChance ev o now s
      = { s with currentTime := now, team := s.team.map updateCharacterWhileResting } := by
    simp [updateTime, h]
  rw [e]
  refine ⟨rfl, rfl, rfl, rfl, rfl, rfl, rfl, rfl, rfl, ?_,
    fun c => ⟨rfl, rfl, rfl, rfl, rfl, rfl, rfl⟩⟩
  rw [List.map_map]
  rfl

/-- C9 witness: a concrete resting tick leaves distance, items, log and
passersby untouched and rest-recovers the single member. -/
theorem C9_resting_frame_witness :
    (updateTime 5 0.5 c9Ev c9Oracle 777 c9State).travelDistance = c9State.travelDistance ∧
    (updateTime 5 0.5 c9Ev c9Oracle 777 c9State).items = c9State.items ∧
    (updateTime 5 0.5 c9Ev c9Oracle 777 c9State).log = c9State.log ∧
    (updateTime 5 0.5 c9Ev c9Oracle 777 c9State).passersby = c9State.passersby ∧
    (updateTime 5 0.5 c9Ev c9Oracle 777 c9State).team
      = c9State.team.map updateCharacterWhileResting := by
  have H := C9_resting_frame 5 0.5 c9Ev c9Oracle 777 c9State rfl
  exact ⟨H.1, H.2.1, H.2.2.1, H.2.2.2.1, H.2.2.2.2.2.2.2.2.1⟩

end Drifting
